import Mathlib

/-!
Shallow embedding of the TaskFlow client (`src/frontend/src/App.js`) and
proofs about its core logic: the role-hierarchy filters, the task-status
update handler, the comment handler, the session manager (login, register,
logout, fetchCurrentUser) and the due-date rendering of a task card.

Stateful React code is embedded as explicit state passing: each handler is
a pure function from its inputs (component state, backend response outcome)
to a record describing the HTTP request it issues (if any) and the state it
leaves behind.  JavaScript truthiness of strings (empty string is falsy) is
modelled explicitly where the source relies on it (`||` fallbacks,
`!s.trim()` guards).
-/

namespace TaskFlow

/-- A user as delivered by `GET /api/users`: id, name, email, role tier and
integer `role_level` (higher = more senior). -/
structure User where
  id : String
  name : String
  email : String
  role : String
  role_level : Int
  deriving DecidableEq, Repr

/-- A calendar date, standing for the parsed value of a task's non-null
`due_date` field. -/
structure DateV where
  year : Nat
  month : Nat
  day : Nat
  deriving DecidableEq, Repr

/-- A comment on a task: author id, text, timestamp. -/
structure TaskComment where
  author : String
  text : String
  timestamp : Nat
  deriving DecidableEq, Repr

/-- A task as delivered by `GET /api/tasks`. -/
structure Task where
  id : String
  title : String
  description : String
  status : String
  priority : String
  assigned_to : String
  assigned_by : String
  due_date : Option DateV
  comments : List TaskComment
  deriving DecidableEq, Repr

/-- `assignableUsers` from `CreateTaskDialog` (App.js lines 744-747):
`users.filter(user => { if (user.id === currentUser.id) return false;
return user.role_level <= currentUser.role_level; })`. -/
def assignableUsers (users : List User) (currentUser : User) : List User :=
  users.filter (fun user =>
    if user.id == currentUser.id then false
    else decide (user.role_level ≤ currentUser.role_level))

/-- The Team Overview roster from `Dashboard` (App.js lines 454-456):
`users.filter(u => u.role_level <= user.role_level)
      .sort((a, b) => b.role_level - a.role_level)`;
the comparator orders by descending `role_level`. -/
def teamOverviewMembers (users : List User) (user : User) : List User :=
  (users.filter (fun u => decide (u.role_level ≤ user.role_level))).mergeSort
    (fun a b => decide (b.role_level ≤ a.role_level))

/-- A concrete user used to exhibit concrete behaviours. -/
def alice : User :=
  { id := "u1", name := "Alice", email := "alice@corp.example", role := "team_lead",
    role_level := 5 }

/-- A second concrete user, more senior than `alice`. -/
def bob : User :=
  { id := "u2", name := "Bob", email := "bob@corp.example", role := "senior_manager",
    role_level := 8 }

/-- C1: `assignableUsers` contains exactly the roster members whose
`role_level` is at most the acting user's and whose id differs from the
acting user's id; in particular it excludes the acting user and every more
senior user. -/
theorem assignableUsers_mem (users : List User) (U u : User) :
    u ∈ assignableUsers users U ↔
      u ∈ users ∧ u.id ≠ U.id ∧ u.role_level ≤ U.role_level := by
  unfold assignableUsers
  rw [List.mem_filter]
  constructor
  · rintro ⟨hu, hcond⟩
    refine ⟨hu, ?_, ?_⟩
    · intro hid
      simp [hid] at hcond
    · by_cases hid : u.id == U.id
      · simp [hid] at hcond
      · simpa [hid] using hcond
  · rintro ⟨hu, hid, hlvl⟩
    refine ⟨hu, ?_⟩
    have : (u.id == U.id) = false := by
      simpa [beq_iff_eq] using hid
    simp [this, hlvl]

/-- C2 counterexample: the Team Overview list is not scoped by the same
filter as `assignableUsers` — it lacks the self-exclusion.  With the roster
`[alice]` and acting user `alice`, the claim says alice is not shown, but
the code shows her. -/
theorem teamOverview_contains_self :
    alice ∈ teamOverviewMembers [alice] alice := by
  unfold teamOverviewMembers
  rw [List.mem_mergeSort]
  decide

/-- C2 amended: the Team Overview list contains exactly the roster members
with `role_level` at most the acting user's — superiors are never shown,
but the acting user is included whenever present in the roster. -/
theorem teamOverviewMembers_mem (users : List User) (U u : User) :
    u ∈ teamOverviewMembers users U ↔ u ∈ users ∧ u.role_level ≤ U.role_level := by
  unfold teamOverviewMembers
  rw [List.mem_mergeSort, List.mem_filter]
  simp

/-- A `PATCH /api/tasks/{id}` request with body `{status}`. -/
structure PatchRequest where
  taskId : String
  status : String
  deriving DecidableEq, Repr

/-- Observable effect of `handleStatusUpdate`: the request issued (if any)
and whether `onTaskUpdated` (a task-list refetch) was triggered. -/
structure StatusUpdateEffect where
  request : Option PatchRequest
  refetch : Bool
  deriving DecidableEq, Repr

/-- `handleStatusUpdate` from `TaskCard` (App.js lines 590-599): returns
immediately when the selected status equals the task's current status;
otherwise issues the PATCH with exactly the selected value and, when the
request succeeds (`netOk`), triggers the refetch; a failed request is only
logged. -/
def handleStatusUpdate (task : Task) (newStatus : String) (netOk : Bool) :
    StatusUpdateEffect :=
  if newStatus == task.status then { request := none, refetch := false }
  else { request := some { taskId := task.id, status := newStatus }, refetch := netOk }

/-- The status-update control in `TaskCard` (App.js line 660) renders only
when `task.assigned_to === currentUser.id`. -/
def statusControlVisible (task : Task) (currentUser : User) : Bool :=
  task.assigned_to == currentUser.id

/-- The Update button in `TaskCard` (App.js line 673) renders only when
`newStatus !== task.status`. -/
def updateButtonVisible (task : Task) (newStatus : String) : Bool :=
  newStatus != task.status

/-- The status values offered by the select control (App.js lines 668-670). -/
def selectableStatuses : List String :=
  ["assigned", "in_progress", "completed"]

/-- Composition of the two render guards with the handler: a status PATCH
can be produced by a task card only by clicking the Update button, which
exists only when the control and the button are both rendered. -/
def taskCardStatusPatch (task : Task) (currentUser : User) (newStatus : String)
    (netOk : Bool) : StatusUpdateEffect :=
  if statusControlVisible task currentUser && updateButtonVisible task newStatus then
    handleStatusUpdate task newStatus netOk
  else { request := none, refetch := false }

/-- A `POST /api/tasks/{id}/comments` request with body `{text}`. -/
structure CommentRequest where
  taskId : String
  text : String
  deriving DecidableEq, Repr

/-- Observable effect of `handleAddComment`: the request issued (if any),
the comment input field's value afterwards, and whether a refetch was
triggered. -/
structure CommentEffect where
  request : Option CommentRequest
  inputAfter : String
  refetch : Bool
  deriving DecidableEq, Repr

/-- JavaScript's `String.prototype.trim`, modelled on the character list:
drops leading and trailing whitespace. -/
def jsTrim (s : String) : String :=
  String.mk (((s.toList.dropWhile Char.isWhitespace).reverse.dropWhile
    Char.isWhitespace).reverse)

/-- `handleAddComment` from `TaskCard` (App.js lines 601-611): returns
immediately when `newComment.trim()` is empty (JS falsiness of the empty
string); otherwise posts the untrimmed text and, when the request succeeds,
clears the input and triggers the refetch; a failed request is only
logged, leaving the input untouched. -/
def handleAddComment (task : Task) (newComment : String) (netOk : Bool) :
    CommentEffect :=
  if jsTrim newComment == "" then
    { request := none, inputAfter := newComment, refetch := false }
  else if netOk then
    { request := some { taskId := task.id, text := newComment },
      inputAfter := "", refetch := true }
  else
    { request := some { taskId := task.id, text := newComment },
      inputAfter := newComment, refetch := false }

/-- A concrete task assigned to `alice` by `bob`, currently in status
`assigned`. -/
def sampleTask : Task :=
  { id := "t1", title := "Write report", description := "Quarterly report",
    status := "assigned", priority := "medium", assigned_to := "u1",
    assigned_by := "u2", due_date := none, comments := [] }

/-- A concrete completed task, used to exhibit a backward transition. -/
def doneTask : Task :=
  { sampleTask with id := "t2", status := "completed" }

/-- C3: submitting a comment whose trimmed text is empty is a no-op (no
POST, input untouched, no refetch); with non-empty trimmed text the comment
is posted and, on success, the input is cleared and a refetch triggered. -/
theorem handleAddComment_spec (t : Task) (s : String) (netOk : Bool) :
    (jsTrim s = "" → handleAddComment t s netOk =
      { request := none, inputAfter := s, refetch := false }) ∧
    (jsTrim s ≠ "" → handleAddComment t s true =
      { request := some { taskId := t.id, text := s },
        inputAfter := "", refetch := true }) := by
  constructor
  · intro h
    simp [handleAddComment, h]
  · intro h
    simp [handleAddComment, h]

/-- C3 witness: a whitespace-only comment is dropped, a non-blank comment
is posted, cleared and refetched. -/
theorem handleAddComment_spec_witness :
    handleAddComment sampleTask "   " false =
      { request := none, inputAfter := "   ", refetch := false } ∧
    handleAddComment sampleTask " done " true =
      { request := some { taskId := "t1", text := " done " },
        inputAfter := "", refetch := true } :=
  ⟨(handleAddComment_spec sampleTask "   " false).1 (by decide),
   (handleAddComment_spec sampleTask " done " true).2 (by decide)⟩

/-- C4: a status PATCH is issued from a task card only when the current
user is the task's assignee: the control gating `handleStatusUpdate` is
rendered only under `task.assigned_to === currentUser.id`. -/
theorem taskCard_patch_only_assignee (t : Task) (c : User) (s : String)
    (netOk : Bool) (req : PatchRequest)
    (h : (taskCardStatusPatch t c s netOk).request = some req) :
    t.assigned_to = c.id := by
  by_cases hv : (statusControlVisible t c && updateButtonVisible t s) = true
  · have : (t.assigned_to == c.id) = true := by
      have := (Bool.and_eq_true _ _).mp hv
      exact this.1
    exact beq_iff_eq.mp this
  · exfalso
    rw [taskCardStatusPatch, if_neg hv] at h
    simp at h

/-- C4 witness: for a task assigned to `alice`, `alice` can reach the PATCH
and she is indeed the assignee. -/
theorem taskCard_patch_only_assignee_witness :
    (taskCardStatusPatch sampleTask alice "in_progress" true).request =
      some { taskId := "t1", status := "in_progress" } ∧
    sampleTask.assigned_to = alice.id :=
  ⟨by decide,
   taskCard_patch_only_assignee sampleTask alice "in_progress" true
     { taskId := "t1", status := "in_progress" } (by decide)⟩

/-- C5: no transition order is enforced: whenever the Update button is
available (selected status differs from the current one), any of the three
selectable values is sent to the backend exactly as selected, whatever the
current status is. -/
theorem handleStatusUpdate_sends_selected (t : Task) (s : String) (netOk : Bool)
    (hs : s ∈ selectableStatuses) (h : updateButtonVisible t s = true) :
    (handleStatusUpdate t s netOk).request = some { taskId := t.id, status := s } := by
  have hne : s ≠ t.status := by
    simpa [updateButtonVisible, bne_iff_ne] using h
  simp [handleStatusUpdate, hne]

/-- C5 witness: on a completed task the backward value `assigned` is
selectable, the button shows, and exactly that value is sent. -/
theorem handleStatusUpdate_sends_selected_witness :
    "assigned" ∈ selectableStatuses ∧
    updateButtonVisible doneTask "assigned" = true ∧
    (handleStatusUpdate doneTask "assigned" true).request =
      some { taskId := "t2", status := "assigned" } :=
  ⟨by decide, by decide,
   handleStatusUpdate_sends_selected doneTask "assigned" true (by decide) (by decide)⟩

/-- C9: selecting the task's current status is a no-op: `handleStatusUpdate`
returns without issuing a PATCH and without a refetch, and the Update
button is not rendered at all in that case. -/
theorem statusUpdate_same_noop (t : Task) (netOk : Bool) :
    handleStatusUpdate t t.status netOk = { request := none, refetch := false } ∧
    updateButtonVisible t t.status = false := by
  constructor
  · simp [handleStatusUpdate]
  · simp [updateButtonVisible]

/-- Client session state as managed by `AuthProvider`: the persisted token
(`localStorage 'token'`), the `token` and `user` React state, and the axios
default `Authorization` header. -/
structure SessionState where
  storedToken : Option String
  token : Option String
  user : Option User
  authHeader : Option String
  deriving DecidableEq, Repr

/-- Payload of a successful login/register response:
`const { access_token, user } = response.data`. -/
structure AuthSuccess where
  access_token : String
  user : User
  deriving DecidableEq, Repr

/-- A failed axios auth call: `error.response?.data?.detail` flattened to an
optional string (`none` when the response, its data or the detail field is
absent). -/
structure AuthFailure where
  detail : Option String
  deriving DecidableEq, Repr

/-- The structured value returned to the caller of `login`/`register`. -/
structure AuthResult where
  success : Bool
  error : Option String
  deriving DecidableEq, Repr

/-- JavaScript `x || fallback` on an optional string: the fallback is used
when `x` is absent or the empty string (both falsy). -/
def jsOrElse (x : Option String) (fallback : String) : String :=
  match x with
  | some s => if s == "" then fallback else s
  | none => fallback

/-- `login` from `AuthProvider` (App.js lines 58-72): on success persists
the token, sets the token and user state and the default auth header, and
returns `{success: true}`; on failure returns `{success: false, error:
error.response?.data?.detail || 'Login failed'}` without touching state. -/
def login (s : SessionState) (resp : Except AuthFailure AuthSuccess) :
    SessionState × AuthResult :=
  match resp with
  | .ok d =>
      ({ storedToken := some d.access_token, token := some d.access_token,
         user := some d.user, authHeader := some ("Bearer " ++ d.access_token) },
       { success := true, error := none })
  | .error e =>
      (s, { success := false, error := some (jsOrElse e.detail "Login failed") })

/-- `register` from `AuthProvider` (App.js lines 74-88): identical to
`login` except for the fallback message `'Registration failed'`. -/
def register (s : SessionState) (resp : Except AuthFailure AuthSuccess) :
    SessionState × AuthResult :=
  match resp with
  | .ok d =>
      ({ storedToken := some d.access_token, token := some d.access_token,
         user := some d.user, authHeader := some ("Bearer " ++ d.access_token) },
       { success := true, error := none })
  | .error e =>
      (s, { success := false, error := some (jsOrElse e.detail "Registration failed") })

/-- `logout` from `AuthProvider` (App.js lines 90-95): removes the persisted
token, nulls the token and user state, and deletes the default auth
header. -/
def logout (_s : SessionState) : SessionState :=
  { storedToken := none, token := none, user := none, authHeader := none }

/-- `fetchCurrentUser` from `AuthProvider` (App.js lines 46-56): a
successful `GET /auth/me` stores the profile in the user state; any failure
invokes `logout`. -/
def fetchCurrentUser (s : SessionState) (resp : Except Unit User) : SessionState :=
  match resp with
  | .ok u => { s with user := some u }
  | .error _ => logout s

/-- A concrete populated session, used to exhibit state preservation. -/
def staleSession : SessionState :=
  { storedToken := some "tok0", token := some "tok0", user := some bob,
    authHeader := some "Bearer tok0" }

/-- A concrete successful auth payload. -/
def freshAuth : AuthSuccess :=
  { access_token := "tok1", user := alice }

/-- C6 counterexample: a backend failure whose `detail` field is present
but empty yields the generic fallback, not the provided detail string. -/
theorem login_empty_detail_fallback :
    (login staleSession (Except.error { detail := some "" })).2.error =
      some "Login failed" ∧ ("Login failed" : String) ≠ "" :=
  ⟨rfl, by decide⟩

/-- C6 amended: a successful login/register returns success true; a failed
one returns success false with the backend detail when it is present and
non-empty, and the generic fallback (`'Login failed'` / `'Registration
failed'`) when it is absent or empty. -/
theorem auth_result_spec (s : SessionState) (e : AuthFailure) (d : AuthSuccess) :
    (login s (Except.ok d)).2 = { success := true, error := none } ∧
    (register s (Except.ok d)).2 = { success := true, error := none } ∧
    (∀ m, e.detail = some m → m ≠ "" →
      (login s (Except.error e)).2 = { success := false, error := some m } ∧
      (register s (Except.error e)).2 = { success := false, error := some m }) ∧
    ((e.detail = none ∨ e.detail = some "") →
      (login s (Except.error e)).2 =
        { success := false, error := some "Login failed" } ∧
      (register s (Except.error e)).2 =
        { success := false, error := some "Registration failed" }) := by
  refine ⟨rfl, rfl, ?_, ?_⟩
  · intro m hm hne
    constructor <;> simp [login, register, jsOrElse, hm, hne]
  · rintro (hd | hd) <;>
      constructor <;> simp [login, register, jsOrElse, hd]

/-- C6 witness: a non-empty detail is surfaced verbatim; an absent detail
falls back to the generic message. -/
theorem auth_result_spec_witness :
    (login staleSession (Except.error { detail := some "Invalid credentials" })).2 =
      { success := false, error := some "Invalid credentials" } ∧
    (login staleSession (Except.error { detail := none })).2 =
      { success := false, error := some "Login failed" } :=
  ⟨((auth_result_spec staleSession { detail := some "Invalid credentials" }
        freshAuth).2.2.1 "Invalid credentials" rfl (by decide)).1,
   ((auth_result_spec staleSession { detail := none } freshAuth).2.2.2
        (Or.inl rfl)).1⟩

/-- C7: a failed `GET /auth/me` invokes `logout`, and `logout` clears every
piece of session state: persisted token, token state, user state and the
default Authorization header. -/
theorem fetchCurrentUser_failure_clears (s : SessionState) :
    fetchCurrentUser s (Except.error ()) = logout s ∧
    logout s = { storedToken := none, token := none, user := none,
                 authHeader := none } :=
  ⟨rfl, rfl⟩

/-- C10: login and register are atomic with respect to session state: on
any failure the session state is returned unchanged — nothing is persisted
and no header is set; state changes only on the success path. -/
theorem auth_failure_preserves_state (s : SessionState) (e : AuthFailure) :
    (login s (Except.error e)).1 = s ∧ (register s (Except.error e)).1 = s :=
  ⟨rfl, rfl⟩

/-- Month abbreviations as produced by the date-fns pattern `MMM`. -/
def monthAbbrev (m : Nat) : String :=
  match m with
  | 1 => "Jan" | 2 => "Feb" | 3 => "Mar" | 4 => "Apr" | 5 => "May" | 6 => "Jun"
  | 7 => "Jul" | 8 => "Aug" | 9 => "Sep" | 10 => "Oct" | 11 => "Nov" | 12 => "Dec"
  | _ => ""

/-- date-fns `format(date, 'MMM dd, yyyy')` (App.js line 654). -/
def formatDueDate (d : DateV) : String :=
  monthAbbrev d.month ++ " " ++
    (if d.day < 10 then "0" ++ toString d.day else toString d.day) ++
    ", " ++ toString d.year

/-- The due-date element of a task card (App.js lines 651-656):
`{task.due_date && (... Due: {format(new Date(task.due_date), 'MMM dd,
yyyy')} ...)}` — rendered exactly when `due_date` is set. -/
def dueDateIndicator (task : Task) : Option String :=
  match task.due_date with
  | some d => some ("Due: " ++ formatDueDate d)
  | none => none

/-- A concrete task carrying a due date. -/
def datedTask : Task :=
  { sampleTask with id := "t3", due_date := some { year := 2026, month := 3, day := 7 } }

/-- C8: a task card shows a due-date indicator exactly when the task's
`due_date` is set, and then it shows the formatted date. -/
theorem dueDateIndicator_iff (t : Task) :
    (dueDateIndicator t = none ↔ t.due_date = none) ∧
    (∀ d, t.due_date = some d →
      dueDateIndicator t = some ("Due: " ++ formatDueDate d)) := by
  cases hd : t.due_date <;> simp [dueDateIndicator, hd]

/-- C8 witness: `sampleTask` (no due date) renders no indicator; `datedTask`
renders the formatted date. -/
theorem dueDateIndicator_iff_witness :
    dueDateIndicator sampleTask = none ∧
    dueDateIndicator datedTask = some "Due: Mar 07, 2026" :=
  ⟨(dueDateIndicator_iff sampleTask).1.mpr rfl,
   (dueDateIndicator_iff datedTask).2 { year := 2026, month := 3, day := 7 } rfl⟩

end TaskFlow
